import Mathlib

/-!
Verification of the pinbot event-driven command-handling engine
(`src/main.rs`) against its natural-language specification.

The Rust source is shallowly embedded: the REST calls a run issues are
collected into a trace (`RestCall` list); the outcome of awaiting each
call is supplied by an oracle `Env`; Rust panics (from `expect` and
`unwrap`) are modelled as the `panicked` outcome, which in the dispatch
loop aborts the whole run, matching the behaviour of a panic unwinding
through a directly awaited future in a single-threaded tokio runtime.
-/

namespace Pinbot

/-! ## Data model mirroring the twilight types as used in main.rs -/

inductive InteractionResponseType where
  | channelMessageWithSource
  | deferredChannelMessageWithSource
  deriving DecidableEq

structure InteractionResponseData where
  content : Option String
  deriving DecidableEq

structure InteractionResponse where
  kind : InteractionResponseType
  data : Option InteractionResponseData
  deriving DecidableEq

inductive ButtonStyle where
  | primary
  | secondary
  | success
  | danger
  | link
  deriving DecidableEq

structure Button where
  style : ButtonStyle
  url : Option String
  custom_id : Option String
  disabled : Bool
  label : Option String
  emoji : Option String
  deriving DecidableEq

structure ActionRow where
  components : List Button
  deriving DecidableEq

/-- Mirrors the `link!` macro in main.rs: a link-style button with label and URL. -/
def link (label url : String) : Button :=
  { style := .link, url := some url, custom_id := none, disabled := false,
    label := some label, emoji := none }

/-- Mirrors the `row!` macro in main.rs: one action row wrapping the components. -/
def row (components : List Button) : List ActionRow :=
  [{ components := components }]

structure Channel where
  id : Nat
  name : Option String
  deriving DecidableEq

structure User where
  id : Nat
  name : String
  deriving DecidableEq

/-- The slice of `CommandData` the handler reads: the command name and the
first entry of `data.resolved.messages` (its message id), when present. -/
structure CommandData where
  name : String
  resolvedMessage : Option Nat
  deriving DecidableEq

inductive InteractionData where
  | applicationCommand (data : CommandData)
  | other
  deriving DecidableEq

structure Interaction where
  id : Nat
  application_id : Nat
  token : String
  guild_id : Option Nat
  channel : Option Channel
  author : Option User
  data : Option InteractionData
  deriving DecidableEq

/-- Discord message-type discriminant of `MessageType::ChannelMessagePinned`,
the automatic pin notice. -/
def channelMessagePinned : Nat := 6

structure Message where
  id : Nat
  channel_id : Nat
  author : User
  kind : Nat
  deriving DecidableEq

/-! ## REST calls and run outcomes -/

/-- One REST request issued by the program, in issue order. -/
inductive RestCall where
  | createResponse (interactionId : Nat) (token : String) (response : InteractionResponse)
  | createPin (channelId messageId : Nat) (reason : String)
  | deletePin (channelId messageId : Nat) (reason : String)
  | createFollowup (token : String) (content : String) (components : Option (List ActionRow))
  | deleteMessage (channelId messageId : Nat)
  deriving DecidableEq

/-- How one invocation of `handle_command` ends: `ok` and `err` are the
`Ok`/`Err` values of its `Result`; `panicked` is a Rust panic raised by
`expect` or `unwrap` on missing payload data. -/
inductive Outcome where
  | ok
  | err
  | panicked
  deriving DecidableEq

def RestCall.isAction : RestCall → Bool
  | .createPin .. => true
  | .deletePin .. => true
  | _ => false

def RestCall.isFollowup : RestCall → Bool
  | .createFollowup .. => true
  | _ => false

def RestCall.isDefer : RestCall → Bool
  | .createResponse _ _ r => r.kind == .deferredChannelMessageWithSource
  | _ => false

def RestCall.isResponse : RestCall → Bool
  | .createResponse .. => true
  | _ => false

/-- Oracle giving the outcome of awaiting each REST call: `true` is `Ok`. -/
abbrev Env : Type := RestCall → Bool

/-- Content and components of every follow-up message in a trace. -/
def followupMessages (tr : List RestCall) : List (String × Option (List ActionRow)) :=
  tr.filterMap fun c =>
    match c with
    | .createFollowup _ content components => some (content, components)
    | _ => none

/-! ## The interaction response constants of main.rs -/

/-- The `DEFER` constant: a deferred acknowledgment with no data. -/
def DEFER : InteractionResponse :=
  { kind := .deferredChannelMessageWithSource, data := none }

/-- The `guild_only()` response: final message telling the user to use a server. -/
def guild_only : InteractionResponse :=
  { kind := .channelMessageWithSource,
    data := some { content := some "You can't pin messages in a direct message channel. Try in a server instead!" } }

/-- The `match data.name.as_str()` mapping in `handle_command`: the two
recognized command names and their `pin` flag. -/
def commandPin : String → Option Bool
  | "Pin Message" => some true
  | "Unpin Message" => some false
  | _ => none

/-! ## handle_command -/

/-- The audit reason string of the pin and unpin requests:
`format!("{username} pinned a message in {channel_name}")` and its
unpin counterpart. -/
def auditReason (username : String) (pin : Bool) (channelName : String) : String :=
  username ++ (if pin then " pinned a message in " else " unpinned a message in ") ++
    channelName

/-- The message-link URL,
`format!("https://discord.com/channels/{}/{}/{}", guild_id, channel_id, message.id)`. -/
def messageLink (guildId channelId messageId : Nat) : String :=
  "https://discord.com/channels/" ++ toString guildId ++ "/" ++ toString channelId ++
    "/" ++ toString messageId

/-- The success follow-up content,
`format!("📌 **{}** {}pinned message in this channel.", username, if pin then "" else "un")`. -/
def successContent (username : String) (pin : Bool) : String :=
  "📌 **" ++ username ++ "** " ++ (if pin then "" else "un") ++
    "pinned message in this channel."

/-- The fixed failure follow-up content. -/
def errorContent : String := "Encountered some error, sorry about that... Try again?"

/-- Shallow embedding of `handle_command` in main.rs, in source order:
channel id (`expect`, panics when absent), guild check (guild-only response),
command-name resolution, resolved message (`expect`), deferral, author
(`unwrap`), pin or unpin call with audit reason, then exactly one follow-up
on either branch of the action result. Returns the trace of REST calls
issued and the outcome. -/
def handle_command (env : Env) (event : Interaction) (data : CommandData) :
    List RestCall × Outcome :=
  match event.channel with
  | none => ([], .panicked)
  | some channel =>
    match event.guild_id with
    | none =>
      let call : RestCall := .createResponse event.id event.token guild_only
      ([call], if env call then .ok else .err)
    | some guildId =>
      match commandPin data.name with
      | none => ([], .ok)
      | some pin =>
        match data.resolvedMessage with
        | none => ([], .panicked)
        | some messageId =>
          let deferCall : RestCall := .createResponse event.id event.token DEFER
          if env deferCall then
            match event.author with
            | none => ([deferCall], .panicked)
            | some user =>
              let channelName := channel.name.getD ""
              let username := user.name
              let reason := auditReason username pin channelName
              let action : RestCall :=
                if pin then .createPin channel.id messageId reason
                else .deletePin channel.id messageId reason
              let button := row [link "Message" (messageLink guildId channel.id messageId)]
              if env action then
                let followup : RestCall :=
                  .createFollowup event.token (successContent username pin) (some button)
                ([deferCall, action, followup], if env followup then .ok else .err)
              else
                let followup : RestCall := .createFollowup event.token errorContent none
                ([deferCall, action, followup], if env followup then .ok else .err)
          else ([deferCall], .err)

/-! ## The event dispatch loop -/

inductive Event where
  | ready (userId : Nat)
  | interactionCreate (interaction : Interaction)
  | messageCreate (message : Message)
  | other
  deriving DecidableEq

/-- One `shard.next_event()` result: an event, or a transport error with its
fatality flag (`error.is_fatal()`). -/
inductive GatewayResult where
  | ok (event : Event)
  | err (fatal : Bool)
  deriving DecidableEq

/-- How the dispatch loop ends: the stream was exhausted, a fatal transport
error broke the loop, or a panic aborted the process. -/
inductive LoopExit where
  | finished
  | fatalError
  | panicked
  deriving DecidableEq

/-- Shallow embedding of the `loop` in `main`: processes gateway results in
order, tracking the `user_id` cell; returns the full trace of REST calls
issued (by the loop and by `handle_command`) and how the loop ended. -/
def runLoop (env : Env) : Option Nat → List GatewayResult → List RestCall × LoopExit
  | _, [] => ([], .finished)
  | userId, result :: rest =>
    match result with
    | .ok (.ready uid) => runLoop env (some uid) rest
    | .ok (.interactionCreate interaction) =>
      match interaction.data with
      | some (.applicationCommand data) =>
        let handled := handle_command env interaction data
        match handled.2 with
        | .panicked => (handled.1, .panicked)
        | _ =>
          let next := runLoop env userId rest
          (handled.1 ++ next.1, next.2)
      | _ => runLoop env userId rest
    | .ok (.messageCreate message) =>
      if userId == some message.author.id && message.kind == channelMessagePinned then
        let next := runLoop env userId rest
        (.deleteMessage message.channel_id message.id :: next.1, next.2)
      else runLoop env userId rest
    | .ok .other => runLoop env userId rest
    | .err fatal =>
      if fatal then ([], .fatalError) else runLoop env userId rest

/-! ## Concrete sample values used by witnesses and counterexamples -/

/-- Oracle under which every REST call succeeds. -/
def envAllOk : Env := fun _ => true

/-- Oracle under which exactly the pin and unpin calls fail. -/
def envActionFails : Env := fun c => !c.isAction

def chanGeneral : Channel := { id := 10, name := some "general" }

def chanNoName : Channel := { id := 10, name := none }

def pinCmd : CommandData := { name := "Pin Message", resolvedMessage := some 555 }

def unpinCmd : CommandData := { name := "Unpin Message", resolvedMessage := some 555 }

def fooCmd : CommandData := { name := "foo", resolvedMessage := some 555 }

/-- A well-formed guild invocation of the pin command by Alice. -/
def guildPinInter : Interaction :=
  { id := 1, application_id := 2, token := "tok", guild_id := some 77,
    channel := some chanGeneral, author := some { id := 42, name := "Alice" },
    data := some (.applicationCommand pinCmd) }

/-- The same invocation arriving from a direct-message context. -/
def dmFooInter : Interaction :=
  { guildPinInter with guild_id := none, data := some (.applicationCommand fooCmd) }

/-- A guild invocation carrying an unrecognized command name. -/
def guildFooInter : Interaction :=
  { guildPinInter with data := some (.applicationCommand fooCmd) }

/-- An invocation whose payload is missing the channel. -/
def noChannelInter : Interaction := { guildPinInter with channel := none }

/-- An invocation whose payload has no identifiable invoking user. -/
def noAuthorInter : Interaction := { guildPinInter with author := none }

/-- A guild invocation whose channel carries no name. -/
def noChanNameInter : Interaction := { guildPinInter with channel := some chanNoName }

/-- An interaction carrying no application-command data. -/
def noDataInter : Interaction := { guildPinInter with data := none }

/-- A pin-notice message authored by user 9. -/
def pinNoticeMsg : Message :=
  { id := 3, channel_id := 4, author := { id := 9, name := "someone" },
    kind := channelMessagePinned }

/-! ## Branch lemmas for handle_command -/

theorem handle_command_channel_none (env : Env) (i : Interaction) (d : CommandData)
    (h : i.channel = none) : handle_command env i d = ([], .panicked) := by
  simp [handle_command, h]

theorem handle_command_dm (env : Env) (i : Interaction) (d : CommandData) (ch : Channel)
    (hch : i.channel = some ch) (hg : i.guild_id = none) :
    handle_command env i d =
      ([.createResponse i.id i.token guild_only],
       if env (.createResponse i.id i.token guild_only) then .ok else .err) := by
  simp [handle_command, hch, hg]

theorem handle_command_unrecognized (env : Env) (i : Interaction) (d : CommandData)
    (ch : Channel) (g : Nat) (hch : i.channel = some ch) (hg : i.guild_id = some g)
    (hp : commandPin d.name = none) : handle_command env i d = ([], .ok) := by
  simp [handle_command, hch, hg, hp]

theorem handle_command_no_message (env : Env) (i : Interaction) (d : CommandData)
    (ch : Channel) (g : Nat) (p : Bool) (hch : i.channel = some ch)
    (hg : i.guild_id = some g) (hp : commandPin d.name = some p)
    (hm : d.resolvedMessage = none) : handle_command env i d = ([], .panicked) := by
  simp [handle_command, hch, hg, hp, hm]

theorem handle_command_defer_failed (env : Env) (i : Interaction) (d : CommandData)
    (ch : Channel) (g mid : Nat) (p : Bool) (hch : i.channel = some ch)
    (hg : i.guild_id = some g) (hp : commandPin d.name = some p)
    (hm : d.resolvedMessage = some mid)
    (hdef : env (.createResponse i.id i.token DEFER) = false) :
    handle_command env i d = ([.createResponse i.id i.token DEFER], .err) := by
  simp [handle_command, hch, hg, hp, hm, hdef]

theorem handle_command_no_author (env : Env) (i : Interaction) (d : CommandData)
    (ch : Channel) (g mid : Nat) (p : Bool) (hch : i.channel = some ch)
    (hg : i.guild_id = some g) (hp : commandPin d.name = some p)
    (hm : d.resolvedMessage = some mid)
    (hdef : env (.createResponse i.id i.token DEFER) = true) (ha : i.author = none) :
    handle_command env i d = ([.createResponse i.id i.token DEFER], .panicked) := by
  simp [handle_command, hch, hg, hp, hm, hdef, ha]

/-- The action call issued on the main branch. -/
def theAction (ch : Channel) (mid : Nat) (u : User) (p : Bool) : RestCall :=
  if p then .createPin ch.id mid (auditReason u.name p (ch.name.getD ""))
  else .deletePin ch.id mid (auditReason u.name p (ch.name.getD ""))

/-- The success follow-up call issued on the main branch. -/
def successFollowup (i : Interaction) (ch : Channel) (g mid : Nat) (u : User)
    (p : Bool) : RestCall :=
  .createFollowup i.token (successContent u.name p)
    (some (row [link "Message" (messageLink g ch.id mid)]))

theorem handle_command_action_ok (env : Env) (i : Interaction) (d : CommandData)
    (ch : Channel) (g mid : Nat) (p : Bool) (u : User) (hch : i.channel = some ch)
    (hg : i.guild_id = some g) (hp : commandPin d.name = some p)
    (hm : d.resolvedMessage = some mid)
    (hdef : env (.createResponse i.id i.token DEFER) = true) (ha : i.author = some u)
    (hact : env (theAction ch mid u p) = true) :
    handle_command env i d =
      ([.createResponse i.id i.token DEFER, theAction ch mid u p,
        successFollowup i ch g mid u p],
       if env (successFollowup i ch g mid u p) then .ok else .err) := by
  simp only [theAction] at hact
  simp [handle_command, hch, hg, hp, hm, hdef, ha, hact, theAction, successFollowup]

theorem handle_command_action_err (env : Env) (i : Interaction) (d : CommandData)
    (ch : Channel) (g mid : Nat) (p : Bool) (u : User) (hch : i.channel = some ch)
    (hg : i.guild_id = some g) (hp : commandPin d.name = some p)
    (hm : d.resolvedMessage = some mid)
    (hdef : env (.createResponse i.id i.token DEFER) = true) (ha : i.author = some u)
    (hact : env (theAction ch mid u p) = false) :
    handle_command env i d =
      ([.createResponse i.id i.token DEFER, theAction ch mid u p,
        .createFollowup i.token errorContent none],
       if env (.createFollowup i.token errorContent none) then .ok else .err) := by
  simp only [theAction] at hact
  simp [handle_command, hch, hg, hp, hm, hdef, ha, hact, theAction]

/-! ## Small facts about the call predicates -/

theorem theAction_isAction (ch : Channel) (mid : Nat) (u : User) (p : Bool) :
    (theAction ch mid u p).isAction = true := by
  cases p <;> simp [theAction, RestCall.isAction]

theorem theAction_not_isFollowup (ch : Channel) (mid : Nat) (u : User) (p : Bool) :
    (theAction ch mid u p).isFollowup = false := by
  cases p <;> simp [theAction, RestCall.isFollowup]

theorem theAction_not_isDefer (ch : Channel) (mid : Nat) (u : User) (p : Bool) :
    (theAction ch mid u p).isDefer = false := by
  cases p <;> simp [theAction, RestCall.isDefer]

theorem deferCall_isDefer (iid : Nat) (tok : String) :
    (RestCall.createResponse iid tok DEFER).isDefer = true := rfl

theorem createResponse_not_isAction (iid : Nat) (tok : String) (r : InteractionResponse) :
    (RestCall.createResponse iid tok r).isAction = false := rfl

theorem createResponse_not_isFollowup (iid : Nat) (tok : String) (r : InteractionResponse) :
    (RestCall.createResponse iid tok r).isFollowup = false := rfl

theorem createFollowup_isFollowup (tok content : String)
    (comps : Option (List ActionRow)) :
    (RestCall.createFollowup tok content comps).isFollowup = true := rfl

theorem createFollowup_not_isAction (tok content : String)
    (comps : Option (List ActionRow)) :
    (RestCall.createFollowup tok content comps).isAction = false := rfl

theorem createFollowup_not_isDefer (tok content : String)
    (comps : Option (List ActionRow)) :
    (RestCall.createFollowup tok content comps).isDefer = false := rfl

theorem successFollowup_isFollowup (i : Interaction) (ch : Channel) (g mid : Nat)
    (u : User) (p : Bool) : (successFollowup i ch g mid u p).isFollowup = true := rfl

theorem successFollowup_not_isAction (i : Interaction) (ch : Channel) (g mid : Nat)
    (u : User) (p : Bool) : (successFollowup i ch g mid u p).isAction = false := rfl

theorem successFollowup_not_isDefer (i : Interaction) (ch : Channel) (g mid : Nat)
    (u : User) (p : Bool) : (successFollowup i ch g mid u p).isDefer = false := rfl

/-! ## The claim C1 trace property -/

/-- Every action call in the trace is preceded by a deferral; when an action
call is present there is exactly one follow-up and it comes after the action;
no trace ever carries more than one follow-up. -/
def DeferThenSingleFollowup (tr : List RestCall) : Prop :=
  tr.countP RestCall.isFollowup ≤ 1 ∧
  (∀ n c, tr.get? n = some c → c.isAction = true →
    ∃ m c2, m < n ∧ tr.get? m = some c2 ∧ c2.isDefer = true) ∧
  (∀ n c, tr.get? n = some c → c.isAction = true →
    tr.countP RestCall.isFollowup = 1 ∧
    ∃ m c2, n < m ∧ tr.get? m = some c2 ∧ c2.isFollowup = true)

theorem dtsf_nil : DeferThenSingleFollowup [] := by
  refine ⟨by simp, ?_, ?_⟩ <;> intro n c hn <;> simp at hn

theorem dtsf_single (a : RestCall) (h1 : a.isAction = false) (h2 : a.isFollowup = false) :
    DeferThenSingleFollowup [a] := by
  refine ⟨by simp [List.countP_cons, h2], ?_, ?_⟩ <;>
  · intro n c hn hA
    match n with
    | 0 =>
      simp at hn
      subst hn
      rw [h1] at hA
      exact Bool.noConfusion hA
    | Nat.succ k => simp at hn

theorem dtsf_triple (a b c : RestCall) (haD : a.isDefer = true) (haA : a.isAction = false)
    (haF : a.isFollowup = false) (_hbA : b.isAction = true) (hbF : b.isFollowup = false)
    (hcF : c.isFollowup = true) (hcA : c.isAction = false) :
    DeferThenSingleFollowup [a, b, c] := by
  have hcount : List.countP RestCall.isFollowup [a, b, c] = 1 := by
    simp [List.countP_cons, haF, hbF, hcF]
  refine ⟨le_of_eq hcount, ?_, ?_⟩
  · intro n x hn hA
    match n with
    | 0 =>
      simp at hn
      subst hn
      rw [haA] at hA
      exact Bool.noConfusion hA
    | 1 => exact ⟨0, a, by omega, rfl, haD⟩
    | 2 =>
      simp at hn
      subst hn
      rw [hcA] at hA
      exact Bool.noConfusion hA
    | Nat.succ (Nat.succ (Nat.succ k)) => simp at hn
  · intro n x hn hA
    match n with
    | 0 =>
      simp at hn
      subst hn
      rw [haA] at hA
      exact Bool.noConfusion hA
    | 1 => exact ⟨hcount, 2, c, by omega, rfl, hcF⟩
    | 2 =>
      simp at hn
      subst hn
      rw [hcA] at hA
      exact Bool.noConfusion hA
    | Nat.succ (Nat.succ (Nat.succ k)) => simp at hn

/-- C1: for every command invocation in a guild with a recognized command
name, the deferred acknowledgment precedes any pin/unpin action call, and
exactly one follow-up is sent after the action call, on both the success and
the failure branch of the action; moreover, under the payload data the
platform schema guarantees and a successful deferral, the deferral, the
action call and the single follow-up are all present. -/
theorem C1_defer_then_single_followup (env : Env) (i : Interaction) (d : CommandData)
    (g : Nat) (p : Bool) (hg : i.guild_id = some g) (hp : commandPin d.name = some p) :
    DeferThenSingleFollowup (handle_command env i d).1 ∧
    (∀ ch mid u, i.channel = some ch → d.resolvedMessage = some mid → i.author = some u →
      env (.createResponse i.id i.token DEFER) = true →
      (handle_command env i d).1.countP RestCall.isDefer = 1 ∧
      (handle_command env i d).1.countP RestCall.isAction = 1 ∧
      (handle_command env i d).1.countP RestCall.isFollowup = 1) := by
  rcases hch : i.channel with _ | ch
  · rw [handle_command_channel_none env i d hch]
    refine ⟨dtsf_nil, ?_⟩
    intro ch2 mid2 u2 hc2 _ _ _
    simp at hc2
  · rcases hm : d.resolvedMessage with _ | mid
    · rw [handle_command_no_message env i d ch g p hch hg hp hm]
      refine ⟨dtsf_nil, ?_⟩
      intro ch2 mid2 u2 _ hm2 _ _
      simp at hm2
    · rcases hdef : env (.createResponse i.id i.token DEFER) with _ | _
      · rw [handle_command_defer_failed env i d ch g mid p hch hg hp hm hdef]
        refine ⟨dtsf_single _ rfl rfl, ?_⟩
        intro ch2 mid2 u2 _ _ _ hdef2
        exact Bool.noConfusion hdef2
      · rcases ha : i.author with _ | u
        · rw [handle_command_no_author env i d ch g mid p hch hg hp hm hdef ha]
          refine ⟨dtsf_single _ rfl rfl, ?_⟩
          intro ch2 mid2 u2 _ _ ha2 _
          simp at ha2
        · rcases hact : env (theAction ch mid u p) with _ | _
          · rw [handle_command_action_err env i d ch g mid p u hch hg hp hm hdef ha hact]
            refine ⟨dtsf_triple _ _ _ (deferCall_isDefer i.id i.token)
              (createResponse_not_isAction i.id i.token DEFER)
              (createResponse_not_isFollowup i.id i.token DEFER)
              (theAction_isAction ch mid u p) (theAction_not_isFollowup ch mid u p)
              (createFollowup_isFollowup i.token errorContent none)
              (createFollowup_not_isAction i.token errorContent none), ?_⟩
            intro ch2 mid2 u2 _ _ _ _
            simp [List.countP_cons, deferCall_isDefer, createResponse_not_isAction,
              createResponse_not_isFollowup, theAction_isAction, theAction_not_isFollowup,
              theAction_not_isDefer, createFollowup_isFollowup, createFollowup_not_isAction,
              createFollowup_not_isDefer]
          · rw [handle_command_action_ok env i d ch g mid p u hch hg hp hm hdef ha hact]
            refine ⟨dtsf_triple _ _ _ (deferCall_isDefer i.id i.token)
              (createResponse_not_isAction i.id i.token DEFER)
              (createResponse_not_isFollowup i.id i.token DEFER)
              (theAction_isAction ch mid u p) (theAction_not_isFollowup ch mid u p)
              (successFollowup_isFollowup i ch g mid u p)
              (successFollowup_not_isAction i ch g mid u p), ?_⟩
            intro ch2 mid2 u2 _ _ _ _
            simp [List.countP_cons, deferCall_isDefer, createResponse_not_isAction,
              createResponse_not_isFollowup, theAction_isAction, theAction_not_isFollowup,
              theAction_not_isDefer, successFollowup_isFollowup, successFollowup_not_isAction,
              successFollowup_not_isDefer]

/-- Witness for C1 at a concrete well-formed guild pin invocation. -/
theorem C1_witness :
    DeferThenSingleFollowup (handle_command envAllOk guildPinInter pinCmd).1 ∧
    (∀ ch mid u, guildPinInter.channel = some ch → pinCmd.resolvedMessage = some mid →
      guildPinInter.author = some u →
      envAllOk (.createResponse guildPinInter.id guildPinInter.token DEFER) = true →
      (handle_command envAllOk guildPinInter pinCmd).1.countP RestCall.isDefer = 1 ∧
      (handle_command envAllOk guildPinInter pinCmd).1.countP RestCall.isAction = 1 ∧
      (handle_command envAllOk guildPinInter pinCmd).1.countP RestCall.isFollowup = 1) :=
  C1_defer_then_single_followup envAllOk guildPinInter pinCmd 77 true rfl rfl

/-- C2: processing a MessageCreate event issues a delete-message call exactly
when the stored self identity equals the author and the message kind is the
automatic pin notice; otherwise, and in particular while the identity is still
unset, the loop issues nothing for it and continues unharmed. -/
theorem C2_suppression_characterization (env : Env) (uid : Option Nat) (m : Message)
    (rest : List GatewayResult) :
    runLoop env uid (.ok (.messageCreate m) :: rest) =
      ((if uid == some m.author.id && m.kind == channelMessagePinned
        then [RestCall.deleteMessage m.channel_id m.id] else []) ++
        (runLoop env uid rest).1,
       (runLoop env uid rest).2) ∧
    runLoop env none (.ok (.messageCreate m) :: rest) = runLoop env none rest := by
  constructor
  · by_cases h : (uid == some m.author.id && m.kind == channelMessagePinned) = true
    · simp [runLoop, h]
    · simp only [Bool.not_eq_true] at h
      simp [runLoop, h]
  · simp [runLoop]

/-- C3 counterexample: a direct-message invocation with the unrecognized
command name "foo" still receives the guild-only response, so a response is
sent and a REST call is attempted. -/
theorem C3_counterexample :
    (handle_command envAllOk dmFooInter fooCmd).1 =
      [RestCall.createResponse 1 "tok" guild_only] ∧
    RestCall.isResponse (RestCall.createResponse 1 "tok" guild_only) = true :=
  ⟨rfl, rfl⟩

/-- C3 amended: in a guild context an unrecognized command name produces no
response and no REST call; a direct-message invocation is answered with the
guild-only response regardless of its command name, because the guild check
runs before name resolution. -/
theorem C3_amended_silent_in_guild (env : Env) (i : Interaction) (d : CommandData) :
    (∀ g, i.guild_id = some g → commandPin d.name = none →
      (handle_command env i d).1 = []) ∧
    (∀ ch, i.channel = some ch → i.guild_id = none →
      (handle_command env i d).1 = [.createResponse i.id i.token guild_only]) := by
  constructor
  · intro g hg hp
    rcases hch : i.channel with _ | ch
    · rw [handle_command_channel_none env i d hch]
    · rw [handle_command_unrecognized env i d ch g hch hg hp]
  · intro ch hch hg
    rw [handle_command_dm env i d ch hch hg]

/-- Witness for C3's amended statement at concrete invocations. -/
theorem C3_witness :
    (handle_command envAllOk guildFooInter fooCmd).1 = [] ∧
    (handle_command envAllOk dmFooInter fooCmd).1 =
      [RestCall.createResponse dmFooInter.id dmFooInter.token guild_only] :=
  ⟨(C3_amended_silent_in_guild envAllOk guildFooInter fooCmd).1 77 rfl rfl,
   (C3_amended_silent_in_guild envAllOk dmFooInter fooCmd).2 chanGeneral rfl rfl⟩

/-- C4: an invocation outside a guild context (with the channel the platform
schema guarantees) is answered by exactly one final, non-deferred response
carrying the fixed guild-only message, and no deferral, pin/unpin action or
follow-up is issued for it. -/
theorem C4_guild_only_response (env : Env) (i : Interaction) (d : CommandData)
    (ch : Channel) (hch : i.channel = some ch) (hg : i.guild_id = none) :
    (handle_command env i d).1 = [.createResponse i.id i.token guild_only] ∧
    guild_only.kind = .channelMessageWithSource ∧
    guild_only.kind ≠ .deferredChannelMessageWithSource ∧
    guild_only.data = some { content := some "You can't pin messages in a direct message channel. Try in a server instead!" } ∧
    (handle_command env i d).1.countP RestCall.isDefer = 0 ∧
    (handle_command env i d).1.countP RestCall.isAction = 0 ∧
    (handle_command env i d).1.countP RestCall.isFollowup = 0 := by
  rw [handle_command_dm env i d ch hch hg]
  refine ⟨rfl, rfl, by decide, rfl, ?_, ?_, ?_⟩ <;>
    simp [List.countP_cons, RestCall.isDefer, RestCall.isAction, RestCall.isFollowup,
      guild_only]

/-- Witness for C4 at a concrete direct-message invocation. -/
theorem C4_witness :
    (handle_command envAllOk dmFooInter fooCmd).1 =
      [.createResponse dmFooInter.id dmFooInter.token guild_only] ∧
    guild_only.kind = .channelMessageWithSource ∧
    guild_only.kind ≠ .deferredChannelMessageWithSource ∧
    guild_only.data = some { content := some "You can't pin messages in a direct message channel. Try in a server instead!" } ∧
    (handle_command envAllOk dmFooInter fooCmd).1.countP RestCall.isDefer = 0 ∧
    (handle_command envAllOk dmFooInter fooCmd).1.countP RestCall.isAction = 0 ∧
    (handle_command envAllOk dmFooInter fooCmd).1.countP RestCall.isFollowup = 0 :=
  C4_guild_only_response envAllOk dmFooInter fooCmd chanGeneral rfl rfl

/-- C5: a non-fatal transport error is only logged — the loop then processes
the remaining queued results exactly as it otherwise would; a fatal transport
error exits the loop and nothing queued after it is processed. -/
theorem C5_transport_error_policy (env : Env) (uid : Option Nat)
    (rest : List GatewayResult) :
    runLoop env uid (.err false :: rest) = runLoop env uid rest ∧
    runLoop env uid (.err true :: rest) = ([], .fatalError) := by
  constructor <;> simp [runLoop]

/-- C6 counterexample: an invocation whose payload is missing its channel
makes the handler panic, which aborts the whole process — the queued
pin-notice event satisfying the suppression condition is never processed and
its delete call is never issued. -/
theorem C6_counterexample :
    runLoop envAllOk (some 9)
      [.ok (.interactionCreate noChannelInter), .ok (.messageCreate pinNoticeMsg)] =
      ([], .panicked) :=
  rfl

/-- C6 amended: `Err` results of the invocation handler are logged and
swallowed — the loop continues with the remaining events unchanged; but a
payload missing the channel, the resolved target message or an identifiable
invoking user makes the handler panic, and the panic aborts the entire
process, so nothing queued behind it is processed. -/
theorem C6_error_policy (env : Env) (uid : Option Nat) (i : Interaction)
    (d : CommandData) (rest : List GatewayResult)
    (hd : i.data = some (.applicationCommand d)) :
    ((handle_command env i d).2 ≠ .panicked →
      runLoop env uid (.ok (.interactionCreate i) :: rest) =
        ((handle_command env i d).1 ++ (runLoop env uid rest).1,
         (runLoop env uid rest).2)) ∧
    ((handle_command env i d).2 = .panicked →
      runLoop env uid (.ok (.interactionCreate i) :: rest) =
        ((handle_command env i d).1, .panicked)) := by
  constructor
  · intro hout
    rcases hres : (handle_command env i d).2 with _ | _ | _
    · simp [runLoop, hd, hres]
    · simp [runLoop, hd, hres]
    · exact absurd hres hout
  · intro hout
    simp [runLoop, hd, hout]

/-- Witness for C6's amended statement: a swallowed handler error (stream
continues) and a panicking payload (process aborts). -/
theorem C6_witness :
    runLoop envAllOk none [.ok (.interactionCreate dmFooInter)] =
      ((handle_command envAllOk dmFooInter fooCmd).1 ++ (runLoop envAllOk none []).1,
       (runLoop envAllOk none []).2) ∧
    runLoop envAllOk none [.ok (.interactionCreate noChannelInter)] =
      ((handle_command envAllOk noChannelInter pinCmd).1, .panicked) :=
  ⟨(C6_error_policy envAllOk none dmFooInter fooCmd [] rfl).1 (by decide),
   (C6_error_policy envAllOk none noChannelInter pinCmd [] rfl).2 rfl⟩

/-- C7: on the success path with display name Alice the follow-up content is
exactly the pinned/unpinned literal selected by the command, together with
one link-style button labelled Message whose URL is built from the guild,
channel and message identifiers. -/
theorem C7_success_content (env : Env) (i : Interaction) (ch : Channel)
    (g mid uidA : Nat) (dPin dUnpin : CommandData)
    (hch : i.channel = some ch) (hg : i.guild_id = some g)
    (ha : i.author = some { id := uidA, name := "Alice" })
    (hpn : dPin.name = "Pin Message") (hpm : dPin.resolvedMessage = some mid)
    (hun : dUnpin.name = "Unpin Message") (hum : dUnpin.resolvedMessage = some mid)
    (hok : ∀ c, env c = true) :
    followupMessages (handle_command env i dPin).1 =
      [("📌 **Alice** pinned message in this channel.",
        some [ActionRow.mk [Button.mk .link
          (some ("https://discord.com/channels/" ++ toString g ++ "/" ++
            toString ch.id ++ "/" ++ toString mid))
          none false (some "Message") none]])] ∧
    followupMessages (handle_command env i dUnpin).1 =
      [("📌 **Alice** unpinned message in this channel.",
        some [ActionRow.mk [Button.mk .link
          (some ("https://discord.com/channels/" ++ toString g ++ "/" ++
            toString ch.id ++ "/" ++ toString mid))
          none false (some "Message") none]])] := by
  have hp : commandPin dPin.name = some true := by rw [hpn]; decide
  have hu : commandPin dUnpin.name = some false := by rw [hun]; decide
  constructor
  · rw [handle_command_action_ok env i dPin ch g mid true { id := uidA, name := "Alice" }
      hch hg hp hpm (hok _) ha (hok _)]
    simp [followupMessages, theAction, successFollowup, successContent, messageLink,
      row, link]
  · rw [handle_command_action_ok env i dUnpin ch g mid false { id := uidA, name := "Alice" }
      hch hg hu hum (hok _) ha (hok _)]
    simp [followupMessages, theAction, successFollowup, successContent, messageLink,
      row, link]

/-- Witness for C7 at a concrete guild invocation by Alice. -/
theorem C7_witness :
    followupMessages (handle_command envAllOk guildPinInter pinCmd).1 =
      [("📌 **Alice** pinned message in this channel.",
        some [ActionRow.mk [Button.mk .link
          (some ("https://discord.com/channels/" ++ toString 77 ++ "/" ++
            toString chanGeneral.id ++ "/" ++ toString 555))
          none false (some "Message") none]])] ∧
    followupMessages (handle_command envAllOk guildPinInter unpinCmd).1 =
      [("📌 **Alice** unpinned message in this channel.",
        some [ActionRow.mk [Button.mk .link
          (some ("https://discord.com/channels/" ++ toString 77 ++ "/" ++
            toString chanGeneral.id ++ "/" ++ toString 555))
          none false (some "Message") none]])] :=
  C7_success_content envAllOk guildPinInter chanGeneral 77 555 42 pinCmd unpinCmd
    rfl rfl rfl rfl rfl rfl rfl (fun _ => rfl)

/-- C8: when the pin/unpin action call fails, the single follow-up carries
exactly the fixed error text and no components, for either value of the pin
flag. -/
theorem C8_failure_content (env : Env) (i : Interaction) (ch : Channel) (g mid : Nat)
    (u : User) (d : CommandData) (p : Bool)
    (hch : i.channel = some ch) (hg : i.guild_id = some g) (ha : i.author = some u)
    (hp : commandPin d.name = some p) (hm : d.resolvedMessage = some mid)
    (hdef : env (.createResponse i.id i.token DEFER) = true)
    (hact : ∀ c, c.isAction = true → env c = false) :
    followupMessages (handle_command env i d).1 =
      [("Encountered some error, sorry about that... Try again?", none)] := by
  rw [handle_command_action_err env i d ch g mid p u hch hg hp hm hdef ha
    (hact _ (theAction_isAction ch mid u p))]
  cases p <;> simp [followupMessages, theAction, errorContent]

/-- Witness for C8 under the oracle failing exactly the action calls. -/
theorem C8_witness :
    followupMessages (handle_command envActionFails guildPinInter pinCmd).1 =
      [("Encountered some error, sorry about that... Try again?", none)] :=
  C8_failure_content envActionFails guildPinInter chanGeneral 77 555
    { id := 42, name := "Alice" } pinCmd true rfl rfl rfl rfl rfl rfl
    (fun c h => by simp [envActionFails, h])

/-- C9 counterexample: a guild pin invocation whose payload has no
identifiable invoking user panics after the deferral, and the pin action
call is never issued — so the absent display identity does prevent the
action. -/
theorem C9_counterexample :
    (handle_command envAllOk noAuthorInter pinCmd).1.countP RestCall.isAction = 0 ∧
    (handle_command envAllOk noAuthorInter pinCmd).2 = .panicked :=
  ⟨rfl, rfl⟩

/-- C9 amended: the pin/unpin call carries an audit reason embedding the
invoking user's display name and the channel name; an absent channel name
does not prevent the action (the empty string stands in for it), but an
absent invoking user panics before the action call, which is then not
issued. -/
theorem C9_amended_audit_reason (env : Env) (i : Interaction) (ch : Channel)
    (g mid : Nat) (u : User) (d : CommandData) (p : Bool)
    (hch : i.channel = some ch) (hg : i.guild_id = some g) (ha : i.author = some u)
    (hp : commandPin d.name = some p) (hm : d.resolvedMessage = some mid)
    (hdef : env (.createResponse i.id i.token DEFER) = true) :
    theAction ch mid u p ∈ (handle_command env i d).1 ∧
    theAction ch mid u p =
      (if p then RestCall.createPin ch.id mid
        (u.name ++ " pinned a message in " ++ ch.name.getD "")
      else RestCall.deletePin ch.id mid
        (u.name ++ " unpinned a message in " ++ ch.name.getD "")) := by
  constructor
  · rcases hact : env (theAction ch mid u p) with _ | _
    · rw [handle_command_action_err env i d ch g mid p u hch hg hp hm hdef ha hact]
      simp
    · rw [handle_command_action_ok env i d ch g mid p u hch hg hp hm hdef ha hact]
      simp
  · cases p <;> simp [theAction, auditReason]

/-- Witness for C9's amended statement at an invocation whose channel has no
name: the action call is still issued, with the empty string in the reason. -/
theorem C9_witness :
    theAction chanNoName 555 { id := 42, name := "Alice" } true ∈
      (handle_command envAllOk noChanNameInter pinCmd).1 ∧
    theAction chanNoName 555 { id := 42, name := "Alice" } true =
      (if true then RestCall.createPin chanNoName.id 555
        ((User.mk 42 "Alice").name ++ " pinned a message in " ++ chanNoName.name.getD "")
      else RestCall.deletePin chanNoName.id 555
        ((User.mk 42 "Alice").name ++ " unpinned a message in " ++ chanNoName.name.getD "")) :=
  C9_amended_audit_reason envAllOk noChanNameInter chanNoName 77 555
    { id := 42, name := "Alice" } pinCmd true rfl rfl rfl rfl rfl rfl

/-- C10: an InteractionCreate event whose payload is not an application
command is discarded with no side effects — the loop behaves exactly as if
the event had not arrived. -/
theorem C10_non_command_discarded (env : Env) (uid : Option Nat) (i : Interaction)
    (rest : List GatewayResult)
    (hd : i.data = none ∨ i.data = some .other) :
    runLoop env uid (.ok (.interactionCreate i) :: rest) = runLoop env uid rest := by
  rcases hd with hd | hd <;> simp [runLoop, hd]

/-- Witness for C10 at an interaction carrying no command data. -/
theorem C10_witness :
    runLoop envAllOk none [.ok (.interactionCreate noDataInter)] =
      runLoop envAllOk none [] :=
  C10_non_command_discarded envAllOk none noDataInter [] (Or.inl rfl)

end Pinbot
